import Mathlib

/-
  Shallow embedding of `arch_bot_commons/src/useful_methods/mod.rs`.

  The first half embeds the media-classification helpers on `Message`
  (`get_media_info`, `find_biggest_photo`, `text_full`) as pure Lean
  functions over an inductive message model mirroring the teloxide types
  actually consumed by the code (photo set, sticker, video, animation,
  video note, voice, reply chain).

  The second half embeds the file-materialization helpers on `Bot`
  (`download_file_to_vec`, `download_file_to_temp_or_directly`) with the
  external bot capabilities (file resolution, local read, chunked stream,
  full download, temp-file creation) passed in as an explicit environment,
  and the temp-file namespace as explicit state.
-/

namespace UsefulMethods

/-- Byte strings are modelled as lists of byte values. -/
abbrev Bytes := List Nat

/-- `2 ^ 32`: Rust `u32` addition wraps modulo this in release builds. -/
def u32Mod : Nat := 4294967296

/-- teloxide `FileMeta`: opaque file identifier plus declared size. -/
structure FileMeta where
  id : String
  unique_id : String
  size : Nat
deriving DecidableEq

/-- teloxide `PhotoSize`: one variant of a photo set. Fields `width` and
`height` are `u32` in the source. -/
structure PhotoSize where
  width : Nat
  height : Nat
  file : FileMeta
deriving DecidableEq

/-- teloxide `Sticker`, restricted to the fields/accessors the code uses:
`width`/`height` (`u16`, widened with `.into()`), the `is_video()` and
`is_animated()` accessors (modelled as boolean fields), and `file`. -/
structure Sticker where
  width : Nat
  height : Nat
  is_video : Bool
  is_animated : Bool
  file : FileMeta
deriving DecidableEq

/-- teloxide `Video`, restricted to the fields the code uses. -/
structure Video where
  width : Nat
  height : Nat
  file : FileMeta
deriving DecidableEq

/-- teloxide `Animation`, restricted to the fields the code uses. -/
structure Animation where
  width : Nat
  height : Nat
  file : FileMeta
deriving DecidableEq

/-- teloxide `VideoNote`: optional thumbnail (a `PhotoSize`) plus file. -/
structure VideoNote where
  thumb : Option PhotoSize
  file : FileMeta
deriving DecidableEq

/-- teloxide `Voice`, restricted to the file reference. -/
structure Voice where
  file : FileMeta
deriving DecidableEq

/-- `MessageMediaInfo` from the source, with the borrowed
`file: &FileMeta` modelled by value. -/
structure MessageMediaInfo where
  width : Nat
  height : Nat
  is_sticker : Bool
  is_gif : Bool
  is_video : Bool
  is_image : Bool
  is_sound : Bool
  is_voice_or_video_note : Bool
  is_vector_sticker : Bool
  file : FileMeta
deriving DecidableEq

/-- The `is_raster` method of `MessageMediaInfo`. -/
def MessageMediaInfo.is_raster (i : MessageMediaInfo) : Bool :=
  !i.is_vector_sticker && !i.is_sound

/-- The `is_image` method of `MessageMediaInfo` (renamed: the Lean field
of the same name is the stored facet, this is the derived predicate). -/
def MessageMediaInfo.is_image_derived (i : MessageMediaInfo) : Bool :=
  !i.is_video && i.is_raster

/-- teloxide `Message`, restricted to the attachment accessors the code
consumes: photo set, sticker, video, animation, video note, voice, text,
caption, and the replied-to message. The reply back-reference makes the
type recursive. -/
inductive Message where
  | mk (photo : Option (List PhotoSize)) (sticker : Option Sticker)
       (video : Option Video) (animation : Option Animation)
       (video_note : Option VideoNote) (voice : Option Voice)
       (text : Option String) (caption : Option String)
       (reply_to : Option Message) : Message

/-- Accessor mirroring `Message::photo()`. -/
def Message.photo : Message → Option (List PhotoSize)
  | .mk p _ _ _ _ _ _ _ _ => p

/-- Accessor mirroring `Message::sticker()`. -/
def Message.sticker : Message → Option Sticker
  | .mk _ s _ _ _ _ _ _ _ => s

/-- Accessor mirroring `Message::video()`. -/
def Message.video : Message → Option Video
  | .mk _ _ v _ _ _ _ _ _ => v

/-- Accessor mirroring `Message::animation()`. -/
def Message.animation : Message → Option Animation
  | .mk _ _ _ a _ _ _ _ _ => a

/-- Accessor mirroring `Message::video_note()`. -/
def Message.video_note : Message → Option VideoNote
  | .mk _ _ _ _ vn _ _ _ _ => vn

/-- Accessor mirroring `Message::voice()`. -/
def Message.voice : Message → Option Voice
  | .mk _ _ _ _ _ vo _ _ _ => vo

/-- Accessor mirroring `Message::text()`. -/
def Message.text : Message → Option String
  | .mk _ _ _ _ _ _ t _ _ => t

/-- Accessor mirroring `Message::caption()`. -/
def Message.caption : Message → Option String
  | .mk _ _ _ _ _ _ _ c _ => c

/-- Accessor mirroring `Message::reply_to_message()`. -/
def Message.reply_to : Message → Option Message
  | .mk _ _ _ _ _ _ _ _ r => r

/-- One comparison step of Rust `Iterator::max_by_key`: the later element
wins on ties (`key acc ≤ key y` keeps `y`). -/
def maxStep {α : Type} (key : α → Nat) (acc y : α) : α :=
  if key acc ≤ key y then y else acc

/-- Rust `Iterator::max_by_key` over a list: returns the element with the
maximum key; when several elements are equally maximum, the LAST such
element is returned (per the Rust standard library documentation). -/
def iterMaxByKey {α : Type} (key : α → Nat) : List α → Option α
  | [] => none
  | x :: xs => some (xs.foldl (maxStep key) x)

/-- The key `|x| x.width + x.height` used by `find_biggest_photo`:
`u32` addition, wrapping modulo `2 ^ 32`. -/
def photoKey (x : PhotoSize) : Nat :=
  (x.width + x.height) % u32Mod

/-- Body of `find_biggest_photo`, factored over the photo field:
`photo_sizes.iter().max_by_key(|x| x.width + x.height)` when a photo set
is present, `None` otherwise. -/
def find_biggest_photo_in (photo : Option (List PhotoSize)) : Option PhotoSize :=
  match photo with
  | some photo_sizes => iterMaxByKey photoKey photo_sizes
  | none => none

/-- `MessageStuff::find_biggest_photo` for `Message`. -/
def Message.find_biggest_photo (m : Message) : Option PhotoSize :=
  find_biggest_photo_in m.photo

/-- `MessageStuff::text_full` for `Message`:
`self.text().or_else(|| self.caption())`. -/
def Message.text_full (m : Message) : Option String :=
  m.text.orElse (fun _ => m.caption)

/-- The six direct-attachment branches of `get_media_info` (everything
before the reply-chain fallthrough), translated clause by clause from the
source and factored out so that the recursion is confined to the reply
walk. The Rust fallthrough of the guarded video-note branch
(`if let Some(thumb) = &video_note.thumb`) is rendered by duplicating the
remaining voice tail in the two branches that fall through. -/
def get_media_info_direct (photo : Option (List PhotoSize))
    (sticker : Option Sticker) (video : Option Video)
    (animation : Option Animation) (video_note : Option VideoNote)
    (voice : Option Voice) : Option MessageMediaInfo :=
  match find_biggest_photo_in photo with
  | some biggest =>
    some { width := biggest.width, height := biggest.height,
           is_sticker := false, is_gif := false, is_video := false,
           is_image := true, is_sound := false,
           is_voice_or_video_note := false, is_vector_sticker := false,
           file := biggest.file }
  | none =>
  match sticker with
  | some sticker =>
    some { width := sticker.width, height := sticker.height,
           is_sticker := true, is_gif := false,
           is_video := sticker.is_video, is_sound := false,
           is_image := !sticker.is_video && !sticker.is_animated,
           is_voice_or_video_note := false,
           is_vector_sticker := sticker.is_animated,
           file := sticker.file }
  | none =>
  match video with
  | some video =>
    some { width := video.width, height := video.height,
           is_sticker := false, is_gif := false, is_video := true,
           is_image := false, is_sound := false,
           is_voice_or_video_note := false, is_vector_sticker := false,
           file := video.file }
  | none =>
  match animation with
  | some animation =>
    some { width := animation.width, height := animation.height,
           is_sticker := false, is_video := true, is_gif := true,
           is_image := false, is_sound := false,
           is_voice_or_video_note := false, is_vector_sticker := false,
           file := animation.file }
  | none =>
  match video_note with
  | some video_note =>
    match video_note.thumb with
    | some thumb =>
      some { width := thumb.width, height := thumb.height,
             is_sticker := false, is_video := true, is_gif := false,
             is_image := false, is_sound := false,
             is_voice_or_video_note := true, is_vector_sticker := false,
             file := video_note.file }
    | none =>
      match voice with
      | some voice =>
        some { width := 0, height := 0, is_sticker := false,
               is_video := false, is_gif := false, is_image := false,
               is_sound := true, is_voice_or_video_note := true,
               is_vector_sticker := false, file := voice.file }
      | none => none
  | none =>
    match voice with
    | some voice =>
      some { width := 0, height := 0, is_sticker := false,
             is_video := false, is_gif := false, is_image := false,
             is_sound := true, is_voice_or_video_note := true,
             is_vector_sticker := false, file := voice.file }
    | none => none

/-- `MessageStuff::get_media_info` for `Message`: the chain of direct
early-return branches (`get_media_info_direct`), then the reply-chain
recursion, then `None`. -/
def Message.get_media_info : Message → Option MessageMediaInfo
  | .mk photo sticker video animation video_note voice _text _caption reply_to =>
    match get_media_info_direct photo sticker video animation video_note voice with
    | some info => some info
    | none =>
      match reply_to with
      | some reply_to => reply_to.get_media_info
      | none => none

/-- teloxide `types::File`: the resolved record returned by `get_file`,
holding the storage path and the declared size (`file.size` dereferences
through the embedded meta in the source; flattened here). -/
structure TgFile where
  path : String
  size : Nat
deriving DecidableEq

/-- I/O errors are modelled by an error code. -/
abbrev IoErr := Nat

/-- teloxide `DownloadError`: a network failure or an I/O failure while
writing the downloaded bytes. -/
inductive DownloadError where
  | network (e : Nat)
  | io (e : IoErr)
deriving DecidableEq

/-- teloxide `RequestError`, restricted to the variants reachable here:
API-side failure, network failure, and the `Io` variant into which every
`std::io::Error` is converted by `?`. -/
inductive RequestError where
  | api (e : Nat)
  | network (e : Nat)
  | io (e : IoErr)
deriving DecidableEq

/-- The `From<io::Error> for RequestError` conversion applied by `?`. -/
def RequestError.ofIo (e : IoErr) : RequestError :=
  .io e

/-- The `From<DownloadError> for RequestError` conversion applied by `?`:
`Network` maps to `Network`, `Io` maps to `Io`. -/
def RequestError.ofDownload : DownloadError → RequestError
  | .network e => .network e
  | .io e => .io e

/-- Unix `Path::is_absolute`: the path starts with the separator `/`. -/
def isAbsolute (p : String) : Bool :=
  match p.data with
  | [] => false
  | c :: _ => c == '/'

/-- `FileStuff::is_local`: `Path::new(&self.path).is_absolute()`,
modelled with Unix path semantics. -/
def TgFile.is_local (f : TgFile) : Bool :=
  isAbsolute f.path

/-- The external capabilities the `Bot` methods consume, passed as an
explicit environment: `get_file` resolution by file id, the local
filesystem read performed by `File::open` plus `read_to_end`, the chunked
`download_file_stream` (the chunks delivered, then an optional terminal
network error), the whole-content `download_file`, and the outcomes of
`NamedTempFile::new` and `NamedTempFile::reopen` (`none` = success). -/
structure BotEnv where
  get_file : String → Except RequestError TgFile
  read_local : String → Except IoErr Bytes
  download_file_stream : String → List Bytes × Option Nat
  download_file : String → Except DownloadError Bytes
  new_temp : Option IoErr
  reopen : Option IoErr

/-- `BotStuff::download_file_to_vec`: resolve the file, then either read a
local path into the buffer or append every streamed chunk in arrival
order. The `reserve_exact(file.size)` call affects capacity only, never
contents, so it has no counterpart in the result. The Rust function
mutates `to`; here (with `to` rendered as `buf`, since `to` is reserved)
the final buffer is returned. -/
def download_file_to_vec (env : BotEnv) (file : FileMeta) (buf : Bytes) :
    Except RequestError Bytes :=
  match env.get_file file.id with
  | .error e => .error e
  | .ok f =>
    if f.is_local then
      match env.read_local f.path with
      | .error e => .error (RequestError.ofIo e)
      | .ok bytes => .ok (buf ++ bytes)
    else
      match env.download_file_stream f.path with
      | (_, some e) => .error (RequestError.network e)
      | (chunks, none) => .ok (buf ++ chunks.flatten)

/-- `tempfile::NamedTempFile`, reduced to the path it owns. -/
structure NamedTempFile where
  path : String
deriving DecidableEq

/-- The temp-file namespace as explicit state: a counter generating fresh
names and the live files (path, content). -/
structure TempState where
  next : Nat
  files : List (String × Bytes)

/-- The process-unique name chosen for the k-th temporary file. -/
def temp_name (k : Nat) : String :=
  "/tmp/." ++ toString k

/-- Look a path up in the file list. -/
def fsRead (files : List (String × Bytes)) (p : String) : Option Bytes :=
  (files.find? (fun e => e.1 == p)).map (fun e => e.2)

/-- Write a path's content in the file list, replacing any previous
entry for that path. -/
def fsWrite (files : List (String × Bytes)) (p : String) (b : Bytes) :
    List (String × Bytes) :=
  (p, b) :: files.filter (fun e => e.1 != p)

/-- Dropping a `NamedTempFile` deletes the file it owns (the documented
contract of the tempfile crate's deletion-on-drop destructor). -/
def NamedTempFile.drop (h : NamedTempFile) (st : TempState) : TempState :=
  ⟨st.next, st.files.filter (fun e => e.1 != h.path)⟩

/-- Invariant of the temp namespace: every name the counter may still
generate is unused. Holds of the empty namespace and is what makes the
generated names process-unique. -/
def TempState.wf (st : TempState) : Prop :=
  ∀ k, st.next ≤ k → fsRead st.files (temp_name k) = none

/-- `BotStuff::download_file_to_temp_or_directly`: resolve the file; if
local return its path with no temp handle, else create a fresh named temp
file, reopen it, download the full remote content into it, and return its
path plus the owning handle. Failures of `NamedTempFile::new`, `reopen`
and `download_file` are converted into `RequestError` by `?` exactly as
in the source (on those error paths the temp file is dropped again, so no
state survives an error). -/
def download_file_to_temp_or_directly (env : BotEnv) (file : FileMeta)
    (st : TempState) :
    Except RequestError ((String × Option NamedTempFile) × TempState) :=
  match env.get_file file.id with
  | .error e => .error e
  | .ok f =>
    if f.is_local then
      .ok ((f.path, none), st)
    else
      match env.new_temp with
      | some e => .error (RequestError.ofIo e)
      | none =>
        match env.reopen with
        | some e => .error (RequestError.ofIo e)
        | none =>
          match env.download_file f.path with
          | .error de => .error (RequestError.ofDownload de)
          | .ok b =>
            .ok ((temp_name st.next, some ⟨temp_name st.next⟩),
                 ⟨st.next + 1, fsWrite st.files (temp_name st.next) b⟩)

/-- Replace a message's photo field, leaving every other field intact
(statement scaffolding for comparing a message with its photo-free twin). -/
def Message.withPhoto : Message → Option (List PhotoSize) → Message
  | .mk _ s v a vn vo t c r, p => .mk p s v a vn vo t c r

/- Concrete fixtures used by witnesses and counterexamples. -/

/-- A concrete file reference. -/
def fA : FileMeta := ⟨"a", "ua", 1⟩

/-- A second concrete file reference, distinct from `fA`. -/
def fB : FileMeta := ⟨"b", "ub", 2⟩

/-- Photo variant of dimensions 2×1 (key 3). -/
def pA : PhotoSize := ⟨2, 1, fA⟩

/-- Photo variant of dimensions 1×2 (key 3, a tie with `pA`). -/
def pB : PhotoSize := ⟨1, 2, fB⟩

/-- Photo variant of dimensions 10×20. -/
def photoP : PhotoSize := ⟨10, 20, fA⟩

/-- A message whose photo set holds two tied variants. -/
def msgTie : Message := .mk (some [pA, pB]) none none none none none none none none

/-- A message whose photo set holds two variants with distinct keys. -/
def msgTwo : Message := .mk (some [pA, photoP]) none none none none none none none none

/-- An animated (vector) sticker. -/
def stickerA : Sticker := ⟨512, 512, false, true, fA⟩

/-- A static raster sticker. -/
def stickerS : Sticker := ⟨100, 50, false, false, fB⟩

/-- A message with no attachment and no reply. -/
def msgNone : Message := .mk none none none none none none none none none

/-- A message carrying only the animated sticker. -/
def msgStickerA : Message := .mk none (some stickerA) none none none none none none none

/-- A message carrying only the static sticker. -/
def msgStickerS : Message := .mk none (some stickerS) none none none none none none none

/-- A video note without a thumbnail. -/
def vnX : VideoNote := ⟨none, fA⟩

/-- A voice clip. -/
def voX : Voice := ⟨fB⟩

/-- A message with a thumbnail-less video note and a voice clip. -/
def msgC2 : Message := .mk none none none none (some vnX) (some voX) none none none

/-- An ancestor message carrying a photo set. -/
def msgAncestor : Message := .mk (some [photoP]) none none none none none none none none

/-- A message with no media that replies to `msgAncestor`. -/
def msgReply : Message := .mk none none none none none none none none (some msgAncestor)

/-- A message with an empty photo set and a sticker. -/
def msgEmptyPhoto : Message := .mk (some []) (some stickerS) none none none none none none none

/-- A concrete file id/size pair fed to the bot operations. -/
def fmX : FileMeta := ⟨"file-id", "file-uid", 5⟩

/-- A resolved file whose path is not absolute: a remote file. -/
def remoteF : TgFile := ⟨"documents", 5⟩

/-- A resolved file whose path is absolute: a local file. -/
def localF : TgFile := ⟨"/data", 5⟩

/-- The empty temp namespace. -/
def st0 : TempState := ⟨0, []⟩

/-- Environment in which the file resolves remotely and the chunked
stream delivers `[1, 2]` then `[3]` and ends without error. -/
def envStream : BotEnv :=
  ⟨fun _ => .ok remoteF, fun _ => .error 3, fun _ => ([[1, 2], [3]], none),
   fun _ => .error (.network 0), none, none⟩

/-- Environment in which the file resolves remotely and the whole-content
download yields `[4, 5]`; temp creation and reopen succeed. -/
def envDownload : BotEnv :=
  ⟨fun _ => .ok remoteF, fun _ => .error 3, fun _ => ([], none),
   fun _ => .ok [4, 5], none, none⟩

/-- Environment in which the file resolves remotely and temp-file
creation fails with I/O error 7. -/
def envTempFail : BotEnv :=
  ⟨fun _ => .ok remoteF, fun _ => .error 3, fun _ => ([], none),
   fun _ => .ok [4, 5], some 7, none⟩

/-- Environment in which the file resolves locally and the local read
fails with I/O error 7. -/
def envReadFail : BotEnv :=
  ⟨fun _ => .ok localF, fun _ => .error 7, fun _ => ([], none),
   fun _ => .error (.network 0), none, none⟩

/-- Environment in which the file resolves locally and the local read
yields `[8, 9]`. -/
def envLocal : BotEnv :=
  ⟨fun _ => .ok localF, fun _ => .ok [8, 9], fun _ => ([], none),
   fun _ => .error (.network 0), none, none⟩

/- Helper lemmas (shared; not claim theorems). -/

/-- Decomposition of the `max_by_key` fold: the input splits into a
prefix whose keys are at most the result's key and a suffix whose keys
are strictly below it, so the fold returns the LAST maximal element. -/
theorem foldl_maxStep_decomp {α : Type} (key : α → Nat) :
    ∀ (xs : List α) (x : α),
      ∃ l1 l2, x :: xs = l1 ++ (xs.foldl (maxStep key) x) :: l2 ∧
        (∀ q ∈ l1, key q ≤ key (xs.foldl (maxStep key) x)) ∧
        (∀ q ∈ l2, key q < key (xs.foldl (maxStep key) x)) := by
  intro xs
  induction xs with
  | nil =>
    intro x
    exact ⟨[], [], rfl, by simp, by simp⟩
  | cons y t ih =>
    intro x
    by_cases hxy : key x ≤ key y
    · obtain ⟨l1, l2, hdec, h1, h2⟩ := ih y
      have hstep : List.foldl (maxStep key) x (y :: t) = List.foldl (maxStep key) y t := by
        simp [List.foldl_cons, maxStep, hxy]
      rw [hstep]
      generalize hm : List.foldl (maxStep key) y t = m at hdec h1 h2 ⊢
      have hy : key y ≤ key m := by
        cases l1 with
        | nil =>
          rw [List.nil_append] at hdec
          rw [(List.cons_eq_cons.mp hdec).1]
        | cons a l1' =>
          rw [List.cons_append] at hdec
          rw [(List.cons_eq_cons.mp hdec).1]
          exact h1 a (List.mem_cons_self a l1')
      refine ⟨x :: l1, l2, ?_, ?_, h2⟩
      · rw [List.cons_append, ← hdec]
      · intro q hq
        rcases List.mem_cons.mp hq with h | h
        · rw [h]; exact Nat.le_trans hxy hy
        · exact h1 q h
    · have hyx : key y < key x := Nat.lt_of_not_le hxy
      obtain ⟨l1, l2, hdec, h1, h2⟩ := ih x
      have hstep : List.foldl (maxStep key) x (y :: t) = List.foldl (maxStep key) x t := by
        simp [List.foldl_cons, maxStep, hxy]
      rw [hstep]
      generalize hm : List.foldl (maxStep key) x t = m at hdec h1 h2 ⊢
      cases l1 with
      | nil =>
        rw [List.nil_append] at hdec
        have hx : x = m := (List.cons_eq_cons.mp hdec).1
        have ht : t = l2 := (List.cons_eq_cons.mp hdec).2
        refine ⟨[], y :: t, ?_, by simp, ?_⟩
        · rw [List.nil_append, ← hx]
        · intro q hq
          rcases List.mem_cons.mp hq with h | h
          · rw [h, ← hx]; exact hyx
          · exact h2 q (ht ▸ h)
      | cons a l1' =>
        rw [List.cons_append] at hdec
        have hx : x = a := (List.cons_eq_cons.mp hdec).1
        have ht : t = l1' ++ m :: l2 := (List.cons_eq_cons.mp hdec).2
        have hxm : key x ≤ key m := by
          rw [hx]
          exact h1 a (List.mem_cons_self a l1')
        refine ⟨x :: y :: l1', l2, ?_, ?_, h2⟩
        · rw [List.cons_append, List.cons_append, ← ht]
        · intro q hq
          rcases List.mem_cons.mp hq with h | h
          · rw [h]; exact hxm
          · rcases List.mem_cons.mp h with h' | h'
            · rw [h']; exact Nat.le_trans (Nat.le_of_lt hyx) hxm
            · exact h1 q (List.mem_cons_of_mem a h')

/-- Reading a path right after writing it yields the written content. -/
theorem fsRead_fsWrite_self (files : List (String × Bytes)) (p : String) (b : Bytes) :
    fsRead (fsWrite files p b) p = some b := by
  unfold fsRead fsWrite
  rw [List.find?_cons_of_pos _ (by simp)]
  rfl

/-- Filtering out a path's entries makes it unreadable. -/
theorem fsRead_filter_ne (files : List (String × Bytes)) (p : String) :
    fsRead (files.filter (fun e => e.1 != p)) p = none := by
  induction files with
  | nil => rfl
  | cons e l ih =>
    rw [List.filter_cons]
    by_cases h : e.1 = p
    · have hb : (e.1 != p) = false := by simp [h]
      rw [hb]
      simpa using ih
    · have hb : (e.1 != p) = true := by simp [h]
      rw [hb]
      simp only [if_true]
      unfold fsRead
      rw [List.find?_cons_of_neg _ (by simp [h])]
      exact ih

/-- When the message has a biggest photo, `get_media_info` returns the
photo descriptor built from it. -/
theorem get_media_info_photo (m : Message) (p : PhotoSize)
    (hp : m.find_biggest_photo = some p) :
    m.get_media_info =
      some ⟨p.width, p.height, false, false, false, true, false, false, false, p.file⟩ := by
  cases m with
  | mk photo s v a vn vo t c r =>
    have hp' : find_biggest_photo_in photo = some p := hp
    cases r <;> simp [Message.get_media_info, get_media_info_direct, hp']

/-- When the message has no biggest photo but a sticker, `get_media_info`
returns the sticker descriptor built from it. -/
theorem get_media_info_sticker (m : Message) (s : Sticker)
    (hp : m.find_biggest_photo = none) (hs : m.sticker = some s) :
    m.get_media_info =
      some ⟨s.width, s.height, true, false, s.is_video,
            (!s.is_video && !s.is_animated), false, false, s.is_animated, s.file⟩ := by
  cases m with
  | mk photo st v a vn vo t c r =>
    have hp' : find_biggest_photo_in photo = none := hp
    have hs' : st = some s := hs
    subst hs'
    cases r <;> simp [Message.get_media_info, get_media_info_direct, hp']

/- Claim theorems. -/

/-- Claim C1, amended: for every message with a non-empty photo set,
`find_biggest_photo` returns a variant maximizing the u32 sum
`width + height`; when several variants tie at the maximum it returns the
LAST such variant in the set's original order (everything before the
result has key at most the result's, everything after strictly less). -/
theorem C1_find_biggest_photo_last_max (m : Message) (l : List PhotoSize)
    (hp : m.photo = some l) (hne : l ≠ []) :
    ∃ p l1 l2, m.find_biggest_photo = some p ∧ l = l1 ++ p :: l2 ∧
      (∀ q ∈ l1, photoKey q ≤ photoKey p) ∧ (∀ q ∈ l2, photoKey q < photoKey p) := by
  cases l with
  | nil => exact absurd rfl hne
  | cons x xs =>
    obtain ⟨l1, l2, hdec, h1, h2⟩ := foldl_maxStep_decomp photoKey xs x
    refine ⟨List.foldl (maxStep photoKey) x xs, l1, l2, ?_, hdec, h1, h2⟩
    show find_biggest_photo_in m.photo = _
    rw [hp]
    rfl

/-- Witness for C1 at a two-variant photo set with distinct keys. -/
theorem C1_witness :
    ∃ p l1 l2, msgTwo.find_biggest_photo = some p ∧
      [pA, photoP] = l1 ++ p :: l2 ∧
      (∀ q ∈ l1, photoKey q ≤ photoKey p) ∧
      (∀ q ∈ l2, photoKey q < photoKey p) :=
  C1_find_biggest_photo_last_max msgTwo [pA, photoP] rfl (by simp)

/-- Claim C1 counterexample: in the tied photo set `[pA, pB]` the first
variant `pA` already attains the maximal key, yet `find_biggest_photo`
returns the distinct second variant `pB` — the tie goes to the last
maximal variant, not the first. -/
theorem C1_tie_counterexample :
    msgTie.photo = some [pA, pB] ∧
    photoKey pA = photoKey pB ∧
    (∀ q ∈ [pA, pB], photoKey q ≤ photoKey pA) ∧
    msgTie.find_biggest_photo = some pB ∧
    pB ≠ pA := by
  refine ⟨rfl, rfl, by decide, ?_, by decide⟩
  rfl

/-- Claim C10: a present-but-empty photo set yields no biggest photo, and
classification proceeds exactly as if no photo set were present — in
particular a sticker on the same message is classified by the sticker
branch. -/
theorem C10_empty_photo_set (m : Message) (hp : m.photo = some []) :
    m.find_biggest_photo = none ∧
    m.get_media_info = (m.withPhoto none).get_media_info ∧
    (∀ s, m.sticker = some s →
      m.get_media_info =
        some ⟨s.width, s.height, true, false, s.is_video,
              (!s.is_video && !s.is_animated), false, false, s.is_animated, s.file⟩) := by
  cases m with
  | mk photo st v a vn vo t c r =>
    have hp' : photo = some [] := hp
    subst hp'
    refine ⟨rfl, ?_, ?_⟩
    · have hd : get_media_info_direct (some []) st v a vn vo =
          get_media_info_direct none st v a vn vo := rfl
      cases r <;> simp [Message.get_media_info, Message.withPhoto, hd]
    · intro s hs
      exact get_media_info_sticker _ s rfl hs

/-- Witness for C10: the fixture with an empty photo set and a sticker. -/
theorem C10_witness :
    msgEmptyPhoto.find_biggest_photo = none ∧
    msgEmptyPhoto.get_media_info = (msgEmptyPhoto.withPhoto none).get_media_info ∧
    (∀ s, msgEmptyPhoto.sticker = some s →
      msgEmptyPhoto.get_media_info =
        some ⟨s.width, s.height, true, false, s.is_video,
              (!s.is_video && !s.is_animated), false, false, s.is_animated, s.file⟩) :=
  C10_empty_photo_set msgEmptyPhoto rfl

/-- Claim C2: on a message with no photo set, sticker, video or
animation that carries a video note WITHOUT a thumbnail, classification
skips the video note entirely: it returns the voice descriptor if a voice
clip is present, else the replied-to message's classification, else
`none`. -/
theorem C2_video_note_without_thumb (m : Message) (vn : VideoNote)
    (hp : m.photo = none) (hs : m.sticker = none) (hv : m.video = none)
    (ha : m.animation = none) (hvn : m.video_note = some vn)
    (ht : vn.thumb = none) :
    m.get_media_info =
      match m.voice with
      | some voice =>
        some ⟨0, 0, false, false, false, false, true, true, false, voice.file⟩
      | none =>
        match m.reply_to with
        | some r => r.get_media_info
        | none => none := by
  cases m with
  | mk p s v a vnf vo t c r =>
    have hp' : p = none := hp
    have hs' : s = none := hs
    have hv' : v = none := hv
    have ha' : a = none := ha
    have hvn' : vnf = some vn := hvn
    subst hp' hs' hv' ha' hvn'
    cases vo <;> cases r <;>
      simp [Message.get_media_info, get_media_info_direct,
            find_biggest_photo_in, ht, Message.voice, Message.reply_to]

/-- Witness for C2: a thumbnail-less video note next to a voice clip. -/
theorem C2_witness :
    msgC2.get_media_info =
      match msgC2.voice with
      | some voice =>
        some ⟨0, 0, false, false, false, false, true, true, false, voice.file⟩
      | none =>
        match msgC2.reply_to with
        | some r => r.get_media_info
        | none => none :=
  C2_video_note_without_thumb msgC2 vnX rfl rfl rfl rfl rfl rfl

/-- Claim C3: with no (non-empty) photo set and a sticker present, the
descriptor has `is_sticker` true, `is_video` the sticker's video flag,
`is_vector_sticker` the sticker's animated flag, `is_image` true exactly
when the sticker is neither video nor animated, and the sticker's
dimensions and file. -/
theorem C3_sticker_descriptor (m : Message) (s : Sticker)
    (hp : m.find_biggest_photo = none) (hs : m.sticker = some s) :
    m.get_media_info =
      some ⟨s.width, s.height, true, false, s.is_video,
            (!s.is_video && !s.is_animated), false, false, s.is_animated, s.file⟩ :=
  get_media_info_sticker m s hp hs

/-- Witness for C3 at the static raster sticker fixture. -/
theorem C3_witness :
    msgStickerS.get_media_info =
      some ⟨stickerS.width, stickerS.height, true, false, stickerS.is_video,
            (!stickerS.is_video && !stickerS.is_animated), false, false,
            stickerS.is_animated, stickerS.file⟩ :=
  C3_sticker_descriptor msgStickerS stickerS rfl rfl

/-- Claim C4: classification is total with no error outcome — every
message yields `some` descriptor or `none`; an animated (vector) sticker
yields a descriptor whose `is_vector_sticker` facet is set rather than an
error; a message with no recognizable media and no reply yields `none`. -/
theorem C4_total_no_error :
    (∀ m : Message, (∃ d, m.get_media_info = some d) ∨ m.get_media_info = none) ∧
    (∀ (m : Message) (s : Sticker), m.find_biggest_photo = none →
      m.sticker = some s → s.is_animated = true →
      ∃ d, m.get_media_info = some d ∧ d.is_vector_sticker = true) ∧
    (∀ m : Message, m.photo = none → m.sticker = none → m.video = none →
      m.animation = none → m.video_note = none → m.voice = none →
      m.reply_to = none → m.get_media_info = none) := by
  refine ⟨?_, ?_, ?_⟩
  · intro m
    cases h : m.get_media_info with
    | none => exact Or.inr rfl
    | some d => exact Or.inl ⟨d, rfl⟩
  · intro m s hp hs hanim
    exact ⟨_, get_media_info_sticker m s hp hs, hanim⟩
  · intro m hp hs hv ha hvn hvo hr
    cases m with
    | mk p s v a vnf vo t c r =>
      have hp' : p = none := hp
      have hs' : s = none := hs
      have hv' : v = none := hv
      have ha' : a = none := ha
      have hvn' : vnf = none := hvn
      have hvo' : vo = none := hvo
      have hr' : r = none := hr
      subst hp' hs' hv' ha' hvn' hvo' hr'
      rfl

/-- Witness for C4: the empty message and the animated-sticker message. -/
theorem C4_witness :
    ((∃ d, msgNone.get_media_info = some d) ∨ msgNone.get_media_info = none) ∧
    (∃ d, msgStickerA.get_media_info = some d ∧ d.is_vector_sticker = true) ∧
    msgNone.get_media_info = none :=
  ⟨C4_total_no_error.1 msgNone,
   C4_total_no_error.2.1 msgStickerA stickerA rfl rfl rfl,
   C4_total_no_error.2.2 msgNone rfl rfl rfl rfl rfl rfl rfl⟩

/-- Claim C5: a message with no direct media (no non-empty photo set, no
sticker, video, animation, thumbnailed video note, or voice) that replies
to another message classifies exactly as that ancestor, unchanged; in
particular when the ancestor has a biggest photo, the ancestor's photo
descriptor is returned. -/
theorem C5_reply_recursion (m r : Message)
    (hp : m.find_biggest_photo = none) (hs : m.sticker = none)
    (hv : m.video = none) (ha : m.animation = none)
    (hvn : ∀ vn, m.video_note = some vn → vn.thumb = none)
    (hvo : m.voice = none) (hr : m.reply_to = some r) :
    m.get_media_info = r.get_media_info ∧
    (∀ p, r.find_biggest_photo = some p →
      m.get_media_info =
        some ⟨p.width, p.height, false, false, false, true, false, false,
              false, p.file⟩) := by
  have h1 : m.get_media_info = r.get_media_info := by
    cases m with
    | mk p s v a vnf vo t c r' =>
      have hp' : find_biggest_photo_in p = none := hp
      have hs' : s = none := hs
      have hv' : v = none := hv
      have ha' : a = none := ha
      have hvo' : vo = none := hvo
      have hr' : r' = some r := hr
      subst hs' hv' ha' hvo' hr'
      cases vnf with
      | none =>
        simp [Message.get_media_info, get_media_info_direct, hp']
      | some vn0 =>
        have ht : vn0.thumb = none := hvn vn0 rfl
        simp [Message.get_media_info, get_media_info_direct, hp', ht]
  refine ⟨h1, ?_⟩
  intro p hp2
  rw [h1]
  exact get_media_info_photo r p hp2

/-- Witness for C5: a bare reply whose ancestor carries a photo. -/
theorem C5_witness :
    msgReply.get_media_info = msgAncestor.get_media_info ∧
    (∀ p, msgAncestor.find_biggest_photo = some p →
      msgReply.get_media_info =
        some ⟨p.width, p.height, false, false, false, true, false, false,
              false, p.file⟩) :=
  C5_reply_recursion msgReply msgAncestor rfl rfl rfl rfl
    (fun _ h => Option.noConfusion h) rfl rfl

/-- Claim C6: for a remotely-resolved file whose stream delivers its
chunks and ends without error, `download_file_to_vec` succeeds and leaves
the buffer equal to its prior content followed by the concatenation of
all chunks in arrival order. The declared size `f.size` is universally
quantified and unconstrained: it is only a pre-sizing capacity hint, and
no relation between it and the actual byte count is required. -/
theorem C6_download_to_vec_remote (env : BotEnv) (file : FileMeta)
    (buf : Bytes) (f : TgFile) (chunks : List Bytes)
    (hres : env.get_file file.id = .ok f) (hloc : f.is_local = false)
    (hstr : env.download_file_stream f.path = (chunks, none)) :
    download_file_to_vec env file buf = .ok (buf ++ chunks.flatten) := by
  simp [download_file_to_vec, hres, hloc, hstr]

/-- Witness for C6: a remote file streamed as `[1, 2]` then `[3]`
appended to prior buffer content `[0]`. -/
theorem C6_witness :
    download_file_to_vec envStream fmX [0] =
      .ok ([0] ++ ([[1, 2], [3]] : List Bytes).flatten) :=
  C6_download_to_vec_remote envStream fmX [0] remoteF [[1, 2], [3]]
    rfl (by decide) rfl

/-- Claim C7: for a locally-resolved file, materialization returns the
resolved path with no temp handle and an unchanged temp namespace; for a
remotely-resolved file it returns the path of a freshly created (unused)
process-unique temp file holding exactly the downloaded content, together
with an owning handle whose drop deletes that file. -/
theorem C7_materialize :
    (∀ (env : BotEnv) (file : FileMeta) (st : TempState) (f : TgFile),
      env.get_file file.id = .ok f → f.is_local = true →
      download_file_to_temp_or_directly env file st = .ok ((f.path, none), st)) ∧
    (∀ (env : BotEnv) (file : FileMeta) (st : TempState) (f : TgFile) (b : Bytes),
      st.wf → env.get_file file.id = .ok f → f.is_local = false →
      env.new_temp = none → env.reopen = none →
      env.download_file f.path = .ok b →
      ∃ (p : String) (h : NamedTempFile) (st' : TempState),
        download_file_to_temp_or_directly env file st = .ok ((p, some h), st') ∧
        h.path = p ∧
        fsRead st.files p = none ∧
        fsRead st'.files p = some b ∧
        fsRead ((h.drop st')).files p = none) := by
  constructor
  · intro env file st f hres hloc
    simp [download_file_to_temp_or_directly, hres, hloc]
  · intro env file st f b hwf hres hloc hnew hre hdl
    refine ⟨temp_name st.next, ⟨temp_name st.next⟩,
            ⟨st.next + 1, fsWrite st.files (temp_name st.next) b⟩,
            ?_, rfl, ?_, ?_, ?_⟩
    · simp [download_file_to_temp_or_directly, hres, hloc, hnew, hre, hdl]
    · exact hwf st.next (Nat.le_refl _)
    · exact fsRead_fsWrite_self st.files (temp_name st.next) b
    · exact fsRead_filter_ne _ _

/-- Witness for C7: the local fixture returns its own path with no
handle; the remote fixture lands in a fresh temp file holding `[4, 5]`
that disappears when the handle drops. -/
theorem C7_witness :
    download_file_to_temp_or_directly envLocal fmX st0 =
      .ok ((localF.path, none), st0) ∧
    (∃ (p : String) (h : NamedTempFile) (st' : TempState),
      download_file_to_temp_or_directly envDownload fmX st0 =
        .ok ((p, some h), st') ∧
      h.path = p ∧
      fsRead st0.files p = none ∧
      fsRead st'.files p = some [4, 5] ∧
      fsRead ((h.drop st')).files p = none) :=
  ⟨C7_materialize.1 envLocal fmX st0 localF rfl (by decide),
   C7_materialize.2 envDownload fmX st0 remoteF [4, 5]
     (fun _ _ => rfl) rfl (by decide) rfl rfl rfl⟩

/-- Claim C8, amended: materialization propagates a resolution failure
unchanged, reports temp-creation failure, reopen failure and download
failure through the single `RequestError` type (the first two as the `io`
variant, the last through the `DownloadError` conversion), and the very
same `io` variant also carries local-read failures of
`download_file_to_vec` — so temp-creation failure is NOT a distinct error
kind distinguishable by the caller from transport-side I/O failure. -/
theorem C8_error_surface :
    (∀ (env : BotEnv) (file : FileMeta) (st : TempState) (e : RequestError),
      env.get_file file.id = .error e →
      download_file_to_temp_or_directly env file st = .error e) ∧
    (∀ (env : BotEnv) (file : FileMeta) (st : TempState) (f : TgFile) (e : IoErr),
      env.get_file file.id = .ok f → f.is_local = false →
      env.new_temp = some e →
      download_file_to_temp_or_directly env file st = .error (RequestError.io e)) ∧
    (∀ (env : BotEnv) (file : FileMeta) (st : TempState) (f : TgFile) (e : IoErr),
      env.get_file file.id = .ok f → f.is_local = false →
      env.new_temp = none → env.reopen = some e →
      download_file_to_temp_or_directly env file st = .error (RequestError.io e)) ∧
    (∀ (env : BotEnv) (file : FileMeta) (st : TempState) (f : TgFile)
      (de : DownloadError),
      env.get_file file.id = .ok f → f.is_local = false →
      env.new_temp = none → env.reopen = none →
      env.download_file f.path = .error de →
      download_file_to_temp_or_directly env file st =
        .error (RequestError.ofDownload de)) ∧
    (∀ (env : BotEnv) (file : FileMeta) (buf : Bytes) (f : TgFile) (e : IoErr),
      env.get_file file.id = .ok f → f.is_local = true →
      env.read_local f.path = .error e →
      download_file_to_vec env file buf = .error (RequestError.io e)) := by
  refine ⟨?_, ?_, ?_, ?_, ?_⟩
  · intro env file st e hres
    simp [download_file_to_temp_or_directly, hres]
  · intro env file st f e hres hloc hnew
    simp [download_file_to_temp_or_directly, hres, hloc, hnew, RequestError.ofIo]
  · intro env file st f e hres hloc hnew hre
    simp [download_file_to_temp_or_directly, hres, hloc, hnew, hre,
          RequestError.ofIo]
  · intro env file st f de hres hloc hnew hre hdl
    simp [download_file_to_temp_or_directly, hres, hloc, hnew, hre, hdl]
  · intro env file buf f e hres hloc hread
    simp [download_file_to_vec, hres, hloc, hread, RequestError.ofIo]

/-- Witness for C8 (amended): temp-creation failure and a local read
failure, both with I/O error code 7, surface through the theorem's
clauses. -/
theorem C8_witness :
    download_file_to_temp_or_directly envTempFail fmX st0 =
      .error (RequestError.io 7) ∧
    download_file_to_vec envReadFail fmX [0] = .error (RequestError.io 7) :=
  ⟨C8_error_surface.2.1 envTempFail fmX st0 remoteF 7 rfl (by decide) rfl,
   C8_error_surface.2.2.2.2 envReadFail fmX [0] localF 7 rfl (by decide) rfl⟩

/-- Claim C8 counterexample: a temp-creation failure (the spec's
`ResourceError` case) and a local-read failure (a case the spec assigns
to `TransportError`) produce the IDENTICAL error value
`RequestError.io 7`, so the two spec error kinds are not distinguishable
by the caller. -/
theorem C8_counterexample :
    download_file_to_temp_or_directly envTempFail fmX st0 =
      .error (RequestError.io 7) ∧
    download_file_to_vec envReadFail fmX [] = .error (RequestError.io 7) :=
  ⟨rfl, rfl⟩

/-- Claim C9: for a locally-resolved file, the bytes appended by
`download_file_to_vec` are exactly the bytes read back from the path
returned by `download_file_to_temp_or_directly`. -/
theorem C9_local_roundtrip (env : BotEnv) (file : FileMeta) (buf : Bytes)
    (st : TempState) (f : TgFile) (b : Bytes)
    (hres : env.get_file file.id = .ok f) (hloc : f.is_local = true)
    (hread : env.read_local f.path = .ok b) :
    download_file_to_vec env file buf = .ok (buf ++ b) ∧
    ∃ p, download_file_to_temp_or_directly env file st = .ok ((p, none), st) ∧
      env.read_local p = .ok b := by
  refine ⟨?_, f.path, ?_, hread⟩
  · simp [download_file_to_vec, hres, hloc, hread]
  · simp [download_file_to_temp_or_directly, hres, hloc]

/-- Witness for C9: the local fixture holding `[8, 9]`. -/
theorem C9_witness :
    download_file_to_vec envLocal fmX [7] = .ok ([7] ++ [8, 9]) ∧
    ∃ p, download_file_to_temp_or_directly envLocal fmX st0 =
        .ok ((p, none), st0) ∧
      envLocal.read_local p = .ok [8, 9] :=
  C9_local_roundtrip envLocal fmX [7] st0 localF [8, 9] rfl (by decide) rfl

end UsefulMethods
